import Mathlib

/-!
Shallow embedding of `src/s2s.py`, a script that converts a Sigma detection
rule into a Splunk query, registers it as a scheduled saved search, and runs
it once, polling the job for completion.

Python strings are modelled as character lists (`Str`).  The external
collaborators — the `argparse` command-line parser, the `sigma` converter
subprocess, and the `splunklib` platform client — are modelled at their
documented interfaces as oracle values or functions supplied to the embedded
code, so that every control-flow branch of the script is represented.
-/

namespace S2S

/-- A Python `str`, modelled as its character sequence. -/
abbrev Str := List Char

/-- Helper for `pySplitWS`: accumulates the current word (reversed). -/
def wordsAux : List Char → List Char → List (List Char)
  | [], acc => if acc.isEmpty then [] else [acc.reverse]
  | c :: cs, acc =>
    if c.isWhitespace then
      if acc.isEmpty then wordsAux cs [] else acc.reverse :: wordsAux cs []
    else
      wordsAux cs (c :: acc)

/-- Python `s.split()` with no separator: splits on runs of whitespace and
drops empty fields.  Because boundary whitespace never yields a field, the
`.strip()` the script applies before `.split()` in `validate_cron`
(src/s2s.py line 29) is absorbed by this function. -/
def pySplitWS (s : Str) : List Str := wordsAux s []

/-- Nonempty and all ASCII digits; models one `\d+` group of the cron regex
(src/s2s.py line 32).  The regex digit class is modelled as an ASCII digit. -/
def isDigits (s : Str) : Bool := !s.isEmpty && s.all (fun c => c.isDigit)

/-- Python `s.split(sep)`: full split on a separator character, keeping empty
segments. -/
def splitAll (sep : Char) (s : Str) : List Str :=
  s.foldr
    (fun c acc =>
      if c = sep then [] :: acc
      else
        match acc with
        | [] => [[c]]
        | w :: ws => (c :: w) :: ws)
    [[]]

/-- One cron field, per the anchored regex on src/s2s.py line 32:
`\*`, `\d+`, `\*/\d+`, `\d+(,\d+)*` or `\d+-\d+`. -/
def isCronField (s : Str) : Bool :=
  s = ['*'] ||
  isDigits s ||
  (match s with
   | '*' :: '/' :: rest => isDigits rest
   | _ => false) ||
  (splitAll ',' s).all isDigits ||
  ((splitAll '-' s).length = 2 && (splitAll '-' s).all isDigits)

/-- The `argparse.ArgumentTypeError` raise sites of the two validators
(src/s2s.py lines 31, 36, 42, 47, 49), one constructor per site. -/
inductive ArgError where
  | badFieldCount
  | badCronField (field : Str)
  | badHostFormat
  | portOutOfRange (portText : Str)
  | portNotInteger (portText : Str)
deriving DecidableEq

/-- `validate_cron` (src/s2s.py lines 28-37): five whitespace-separated
fields, each matching the cron field regex; returns the original input. -/
def validate_cron (timer : Str) : Except ArgError Str :=
  let parts := pySplitWS timer
  if parts.length ≠ 5 then
    .error .badFieldCount
  else
    match parts.find? (fun p => !isCronField p) with
    | some p => .error (.badCronField p)
    | none => .ok timer

/-- Python `s.split(sep, 1)`: split at the first separator, if any. -/
def splitFirst (sep : Char) : Str → Option (Str × Str)
  | [] => none
  | c :: cs =>
    if c = sep then some ([], cs)
    else (splitFirst sep cs).map (fun p => (c :: p.1, p.2))

/-- Python `s.strip()`: remove leading and trailing whitespace. -/
def trimChars (s : Str) : Str :=
  ((s.dropWhile (fun c => c.isWhitespace)).reverse.dropWhile
    (fun c => c.isWhitespace)).reverse

/-- Decimal value of a nonempty all-digit string, else `none`. -/
def digitsVal? (s : Str) : Option Nat :=
  if isDigits s then some (s.foldl (fun n c => 10 * n + (c.toNat - 48)) 0) else none

/-- Python `int(text)` on base-10 input: surrounding whitespace tolerated,
one optional sign, then ASCII digits.  (CPython additionally allows grouping
underscores between digits; no value in this development contains one.) -/
def pyInt? (s : Str) : Option Int :=
  match trimChars s with
  | [] => none
  | c :: rest =>
    if c = '-' then (digitsVal? rest).map (fun n => -(n : Int))
    else if c = '+' then (digitsVal? rest).map (fun n => (n : Int))
    else (digitsVal? (c :: rest)).map (fun n => (n : Int))

/-- `validate_host_port` (src/s2s.py lines 39-50): split on the first colon;
the port segment must parse as an integer in [1, 65535]; returns the original
input.  The out-of-range `ArgumentTypeError` raised inside the `try` block is
not an `int` `ValueError`, so it propagates as the range error. -/
def validate_host_port (hostText : Str) : Except ArgError Str :=
  match splitFirst ':' hostText with
  | none => .error .badHostFormat
  | some (_ip, portText) =>
    match pyInt? portText with
    | none => .error (.portNotInteger portText)
    | some port =>
      if 1 ≤ port ∧ port ≤ 65535 then .ok hostText
      else .error (.portOutOfRange portText)

/-- Whether an `Except` is the error case (the script calls `sys.exit(1)` or
lets `argparse` abort on each error path, so errors are observable). -/
def isError {ε α : Type} : Except ε α → Bool
  | .error _ => true
  | .ok _ => false

/-- Outcome of the `subprocess.run` call on the `sigma` converter
(src/s2s.py line 76): the executable may be missing (`FileNotFoundError`),
or it runs to an exit status with captured stdout and stderr. -/
inductive ToolOutcome where
  | notFound
  | ran (exitStatus : Nat) (stdout : Str) (stderr : Str)
deriving DecidableEq

/-- The fatal error conditions of the script, one constructor per
`logging.error` + `sys.exit(1)` site (src/s2s.py lines 63-68, 79-84, 98-103,
109-111).  `unpackMismatch` stands for the uncaught `ValueError` a colon-free
host would raise at the tuple unpacking on line 53; it is unreachable from
`main` because the host has been validated. -/
inductive ScriptError where
  | connectionFailed (msg : Str)
  | authenticationFailed
  | toolNotFound
  | translationFailed (stderr : Str)
  | duplicateSearch (name : Str)
  | creationFailed (status : Nat) (msg : Str)
  | searchNotFound (name : Str)
  | unpackMismatch
deriving DecidableEq

/-- The argument vector built for the converter subprocess
(src/s2s.py lines 71-74): base command, then `-p <pipeline>` unless the
pipeline equals the sentinel, then the trailing flag in both cases. -/
def sigmaCommand (rulePath pipeline : Str) : List Str :=
  let base := ["sigma".data, "convert".data, "-t".data, "splunk".data,
    "-f".data, "default".data, rulePath]
  let withProfile :=
    if pipeline ≠ "--without-pipeline".data then base ++ ["-p".data, pipeline]
    else base
  withProfile ++ ["--without-pipeline".data]

/-- `convert_sigma_to_splunk` (src/s2s.py lines 70-84).  `run` is the
subprocess oracle applied to the built command.  `check=True` makes a nonzero
exit status raise `CalledProcessError` (handled with the captured stderr);
success returns the stripped stdout. -/
def convert_sigma_to_splunk (rulePath pipeline : Str)
    (run : List Str → ToolOutcome) : Except ScriptError Str :=
  match run (sigmaCommand rulePath pipeline) with
  | .notFound => .error .toolNotFound
  | .ran exitStatus out err =>
    if exitStatus = 0 then .ok (trimChars out) else .error (.translationFailed err)

/-- A saved-search definition as the platform holds it. -/
structure SearchDefinition where
  name : Str
  search : Str
  cron_schedule : Str
  is_scheduled : Bool
  description : Str
deriving DecidableEq

/-- The keyword arguments of the `service.saved_searches.create` call
(src/s2s.py lines 89-95). -/
structure CreateRequest where
  name : Str
  search : Str
  cron_schedule : Str
  is_scheduled : Bool
  description : Str
deriving DecidableEq

/-- The fixed description the script attaches to every saved search it
creates (src/s2s.py line 94). -/
def scriptDescription : Str :=
  "This is a scheduled search created by Sigma2Splunk Python script.".data

/-- The create request issued by `create_scheduled_search`: query wrapped
with the leading `search` directive, scheduling enabled, fixed description. -/
def createRequest (searchName query timer : Str) : CreateRequest :=
  { name := searchName,
    search := "search ".data ++ query,
    cron_schedule := timer,
    is_scheduled := true,
    description := scriptDescription }

/-- Platform response to a create request: the created definition entity, or
an HTTP error status with a diagnostic (`binding.HTTPError`). -/
inductive CreateOutcome where
  | created (d : SearchDefinition)
  | httpError (status : Nat) (msg : Str)

/-- What `create_scheduled_search` can hand back on success: the definition
entity the client library returned, or a plain query string.  The Python
function is dynamically typed, so both shapes are representable; which one
the script actually returns is decided by `create_scheduled_search`. -/
inductive CreateReturn where
  | definition (d : SearchDefinition)
  | queryText (q : Str)
deriving DecidableEq

/-- `create_scheduled_search` (src/s2s.py lines 86-103).  `platform` maps the
issued request to the platform outcome.  On success the script logs the name
of the entity the library returned but returns the `search_query` string
(line 97); a 409 status is reported as a duplicate-name conflict, any other
`HTTPError` as a generic creation failure (lines 98-103). -/
def create_scheduled_search (platform : CreateRequest → CreateOutcome)
    (searchName query timer : Str) : Except ScriptError CreateReturn :=
  let req := createRequest searchName query timer
  match platform req with
  | .created _d => .ok (.queryText req.search)
  | .httpError status msg =>
    if status = 409 then .error (.duplicateSearch searchName)
    else .error (.creationFailed status msg)

/-- Whether a create result is a success carrying the definition entity. -/
def gotDefinition : Except ScriptError CreateReturn → Bool
  | .ok (.definition _) => true
  | _ => false

/-- The query text a create return denotes (what `main` passes on to
`execute_search`). -/
def queryOf : CreateReturn → Str
  | .queryText q => q
  | .definition d => d.search

/-- `delete_saved_search` (src/s2s.py lines 105-111): the library delete
raises `KeyError` when the name is absent from the platform. -/
def delete_saved_search (searchName : Str) (existsOnPlatform : Bool) :
    Except ScriptError Unit :=
  if existsOnPlatform then .ok () else .error (.searchNotFound searchName)

/-- The five job attributes `execute_search` reads (src/s2s.py lines
120-126), already converted the way the script converts them: `isDone` is
kept as the raw string (the script compares it with the literal `"1"`),
`doneProgress` is the parsed fraction (a Python float, modelled as a
rational), the three counts are parsed integers. -/
structure JobMetrics where
  isDone : Str
  doneProgress : ℚ
  scanCount : Int
  eventCount : Int
  resultCount : Int
deriving DecidableEq

/-- A job handle: how many `is_ready()` checks report false before the first
true one, and the metrics the single snapshot then reads. -/
structure JobHandle where
  notReadyChecks : Nat
  metrics : JobMetrics

/-- Observable actions of `execute_search`, in order of occurrence:
job creation, the waiting log line, each readiness check with its result,
each `time.sleep(2)`, the metrics snapshot, the formatted progress log line
(carrying `doneProgress * 100` — rendered to one decimal place by the fixed
format string on line 129 — and the scanned / matched / result counts), and
the conditional completion log line. -/
inductive JobAction where
  | createdJob (query : Str)
  | loggedWaiting
  | checkedReady (ready : Bool)
  | slept (seconds : Nat)
  | readStats (m : JobMetrics)
  | loggedProgress (donePercent : ℚ) (scanned : Int) (matched : Int) (results : Int)
  | loggedCompleted
deriving DecidableEq

/-- The polling loop (src/s2s.py lines 117-118): while not ready, sleep 2
seconds and re-check; the loop ends at the first true check. -/
def pollActions : Nat → List JobAction
  | 0 => [.checkedReady true]
  | n + 1 => .checkedReady false :: .slept 2 :: pollActions n

/-- `execute_search` (src/s2s.py lines 113-136) as its action trace. -/
def execute_search (query : Str) (job : JobHandle) : List JobAction :=
  JobAction.createdJob query :: JobAction.loggedWaiting ::
    (pollActions job.notReadyChecks ++
      (JobAction.readStats job.metrics ::
        JobAction.loggedProgress (job.metrics.doneProgress * 100)
          job.metrics.scanCount job.metrics.eventCount job.metrics.resultCount ::
        (if job.metrics.isDone = "1".data then [JobAction.loggedCompleted] else [])))

/-- The mutually exclusive required action group (src/s2s.py lines 147-149):
exactly one of `--rule <path>` or `--delete`. -/
inductive CliAction where
  | createRule (rulePath : Str)
  | deleteSearch
deriving DecidableEq

/-- The effective command-line values, before type validation: `--name`,
`--host`, the action, `--timer`, `--pipeline` (defaults already applied). -/
structure RawArgs where
  name : Str
  host : Str
  action : CliAction
  timer : Str
  pipeline : Str

/-- Outcome of `client.connect` (src/s2s.py lines 55-68): success, a refused
or timed-out connection, or rejected credentials. -/
inductive ConnectOutcome where
  | ok
  | refused (msg : Str)
  | authRejected

/-- `connect_to_splunk` (src/s2s.py lines 52-68): re-splits the validated
address at the first colon and authenticates. -/
def connect_to_splunk (addr : Str) (outcome : ConnectOutcome) :
    Except ScriptError (Str × Str) :=
  match splitFirst ':' addr with
  | none => .error .unpackMismatch
  | some (host, port) =>
    match outcome with
    | .ok => .ok (host, port)
    | .refused msg => .error (.connectionFailed msg)
    | .authRejected => .error .authenticationFailed

/-- The external world one invocation runs against: the platform connection
outcome, the converter subprocess, the platform create endpoint, whether the
named saved search exists for deletion, and the job the platform runs. -/
structure World where
  connect : ConnectOutcome
  runTool : List Str → ToolOutcome
  platformCreate : CreateRequest → CreateOutcome
  deleteExists : Bool
  job : JobHandle

/-- Observable steps of one invocation of the script, in order. -/
inductive Step where
  | validatedHost (addr : Str)
  | validatedTimer (t : Str)
  | gotCredentials
  | connected (host : Str) (port : Str)
  | ranConverter (cmd : List Str)
  | createdSearch (req : CreateRequest)
  | deletedSearch (name : Str)
  | jobRan (acts : List JobAction)
  | loggedError (e : ScriptError)
  | loggedInterrupt
deriving DecidableEq

/-- Result of one process invocation: its step trace and its exit code. -/
structure RunResult where
  trace : List Step
  exitCode : Nat
deriving DecidableEq

/-- Modelled from Python argparse semantics (the parser itself is standard
library code, not part of this repository): `parse_args` applies the `type=`
callables `validate_host_port` and `validate_cron` to the effective `--host`
and `--timer` values (src/s2s.py lines 141-150); a raised
`ArgumentTypeError` makes the parser call `parser.error`, which terminates
the process with exit status 2, modelled as `none`.  The stored converted
values are what the validators return (the original strings). -/
def parse_args (a : RawArgs) : Option RawArgs :=
  match validate_host_port a.host, validate_cron a.timer with
  | .ok host, .ok timer =>
    some { name := a.name, host := host, action := a.action,
           timer := timer, pipeline := a.pipeline }
  | _, _ => none

/-- `main` (src/s2s.py lines 138-161) plus the process exit behaviour:
argument parsing (with validation), credential acquisition, connection, then
the delete flow or the create flow (convert, create, execute).  Falling off
the end of `main` exits 0; every `sys.exit(1)` site exits 1 after its error
log; an argparse validation error exits 2 before any script step runs. -/
def mainScript (a : RawArgs) (w : World) : RunResult :=
  match parse_args a with
  | none => ⟨[], 2⟩
  | some args =>
    let tr0 := [Step.validatedHost args.host, Step.validatedTimer args.timer,
      Step.gotCredentials]
    match connect_to_splunk args.host w.connect with
    | .error e => ⟨tr0 ++ [Step.loggedError e], 1⟩
    | .ok hp =>
      let tr1 := tr0 ++ [Step.connected hp.1 hp.2]
      match args.action with
      | .deleteSearch =>
        match delete_saved_search args.name w.deleteExists with
        | .error e => ⟨tr1 ++ [Step.loggedError e], 1⟩
        | .ok _ => ⟨tr1 ++ [Step.deletedSearch args.name], 0⟩
      | .createRule rulePath =>
        let tr2 := tr1 ++ [Step.ranConverter (sigmaCommand rulePath args.pipeline)]
        match convert_sigma_to_splunk rulePath args.pipeline w.runTool with
        | .error e => ⟨tr2 ++ [Step.loggedError e], 1⟩
        | .ok query =>
          match create_scheduled_search w.platformCreate args.name query args.timer with
          | .error e => ⟨tr2 ++ [Step.loggedError e], 1⟩
          | .ok ret =>
            ⟨tr2 ++ [Step.createdSearch (createRequest args.name query args.timer),
              Step.jobRan (execute_search (queryOf ret) w.job)], 0⟩

/-- The `if __name__` block (src/s2s.py lines 163-168): a `KeyboardInterrupt`
raised during any step is caught at top level, logged, and the process exits
1.  `interruptAfter = some k` models the interrupt striking after `k` steps
of the run have completed. -/
def script (a : RawArgs) (w : World) (interruptAfter : Option Nat) : RunResult :=
  match interruptAfter with
  | none => mainScript a w
  | some k => ⟨(mainScript a w).trace.take k ++ [Step.loggedInterrupt], 1⟩

/-- Step classifiers and trace observations. -/
def isConvStep : Step → Bool
  | .ranConverter _ => true
  | _ => false

def isConnStep : Step → Bool
  | .connected _ _ => true
  | _ => false

def loggedErrorIn (tr : List Step) : Bool :=
  tr.any (fun s =>
    match s with
    | .loggedError _ => true
    | _ => false)

def isCheck : JobAction → Bool
  | .checkedReady _ => true
  | _ => false

def isSleep : JobAction → Bool
  | .slept _ => true
  | _ => false

def isRead : JobAction → Bool
  | .readStats _ => true
  | _ => false

def isProgress : JobAction → Bool
  | .loggedProgress _ _ _ _ => true
  | _ => false

def isReadyCheck : JobAction → Bool
  | .checkedReady true => true
  | _ => false

def isCheckOrSleep : JobAction → Bool
  | .checkedReady _ => true
  | .slept _ => true
  | _ => false

/-- True on every action that precedes (and excludes) the first successful
readiness check: the complement of `isReadyCheck`, used with `dropWhile` to
observe what the run does from the moment the job is first seen ready. -/
def notYetReady : JobAction → Bool
  | .checkedReady true => false
  | _ => true

/-- Concrete fixtures: the end-to-end create-flow scenario of the spec
(name `alerts`, rule `r.yml`, converter output `foo=bar`, default host and
timer, job ready after two not-ready checks, all metrics as given). -/
def metrics1 : JobMetrics :=
  { isDone := "1".data, doneProgress := 1, scanCount := 100,
    eventCount := 5, resultCount := 5 }

def defn0 : SearchDefinition :=
  { name := "alerts".data, search := "search foo=bar".data,
    cron_schedule := "*/30 * * * *".data, is_scheduled := true,
    description := scriptDescription }

def args0 : RawArgs :=
  { name := "alerts".data, host := "127.0.0.1:8089".data,
    action := CliAction.createRule "r.yml".data,
    timer := "*/30 * * * *".data, pipeline := "--without-pipeline".data }

def world0 : World :=
  { connect := ConnectOutcome.ok,
    runTool := fun _ => ToolOutcome.ran 0 "foo=bar\n".data "".data,
    platformCreate := fun _ => CreateOutcome.created defn0,
    deleteExists := true,
    job := { notReadyChecks := 2, metrics := metrics1 } }

/-- The scenario with a malformed (four-field) timer value. -/
def argsBadTimer : RawArgs :=
  { name := "alerts".data, host := "127.0.0.1:8089".data,
    action := CliAction.createRule "r.yml".data,
    timer := "*/30 * * *".data, pipeline := "--without-pipeline".data }

/-! Helper lemmas. -/

theorem splitFirst_eq_none (c : Char) (l : Str) (h : c ∉ l) :
    splitFirst c l = none := by
  induction l with
  | nil => rfl
  | cons x xs ih =>
    rw [List.mem_cons, not_or] at h
    have hx : ¬ x = c := fun hxc => h.1 (hxc ▸ rfl)
    simp [splitFirst, hx, ih h.2]

theorem splitFirst_append (c : Char) (l r : Str) (h : c ∉ l) :
    splitFirst c (l ++ c :: r) = some (l, r) := by
  induction l with
  | nil => simp [splitFirst]
  | cons x xs ih =>
    rw [List.mem_cons, not_or] at h
    have hx : ¬ x = c := fun hxc => h.1 (hxc ▸ rfl)
    simp [splitFirst, hx, ih h.2]

theorem validate_host_port_ok (s r : Str) (h : validate_host_port s = .ok r) :
    r = s := by
  unfold validate_host_port at h
  split at h
  · cases h
  · split at h
    · cases h
    · split at h
      · cases h
        rfl
      · cases h

theorem validate_host_port_ok_split (s r : Str)
    (h : validate_host_port s = .ok r) :
    ∃ ip ps, splitFirst ':' s = some (ip, ps) := by
  rcases hsp : splitFirst ':' s with _ | ⟨ip, ps⟩
  · exfalso
    simp only [validate_host_port, hsp] at h
    cases h
  · exact ⟨ip, ps, rfl⟩

theorem validate_cron_ok (s r : Str) (h : validate_cron s = .ok r) : r = s := by
  simp only [validate_cron] at h
  split at h
  · cases h
  · split at h
    · cases h
    · cases h
      rfl

theorem parse_args_some (a b : RawArgs) (h : parse_args a = some b) :
    b = a ∧ validate_host_port a.host = .ok a.host ∧
      validate_cron a.timer = .ok a.timer := by
  unfold parse_args at h
  split at h
  · rename_i host timer hv hc
    cases h
    have hh : host = a.host := validate_host_port_ok _ _ hv
    have ht : timer = a.timer := validate_cron_ok _ _ hc
    subst hh
    subst ht
    exact ⟨rfl, hv, hc⟩
  · cases h

/-! Claims C4, C5, C10 about the validators. -/

/-- Claim C4 (confirmed): a schedule expression whose whitespace-split field
count is not 5 is rejected by `validate_cron`; a five-field expression whose
every field matches one of the cron shapes validates, returning the original
input string unchanged. -/
theorem C4_validate_cron (e1 e2 : Str)
    (h1 : (pySplitWS e1).length ≠ 5)
    (h2 : (pySplitWS e2).length = 5)
    (h3 : (pySplitWS e2).all isCronField = true) :
    isError (validate_cron e1) = true ∧ validate_cron e2 = .ok e2 := by
  constructor
  · unfold validate_cron
    rw [if_pos h1]
    rfl
  · unfold validate_cron
    rw [if_neg (by simp [h2])]
    have hnone : (pySplitWS e2).find? (fun p => !isCronField p) = none := by
      rw [List.find?_eq_none]
      intro x hx
      simp [List.all_eq_true.mp h3 x hx]
    rw [hnone]

/-- Witness for C4 at the default timer and its four-field truncation. -/
theorem C4_witness :
    isError (validate_cron "*/30 * * *".data) = true ∧
    validate_cron "*/30 * * * *".data = .ok "*/30 * * * *".data :=
  C4_validate_cron "*/30 * * *".data "*/30 * * * *".data
    (by decide) (by decide) (by decide)

/-- Claim C5 (confirmed): `validate_host_port` splits at the first colon and
fails when there is no colon, when the port segment does not parse as an
integer, or when the parsed port lies outside [1, 65535]; otherwise it
returns the original string; and the four concrete examples behave as
stated. -/
theorem C5_validate_host_port :
    (∀ s : Str, ':' ∉ s → isError (validate_host_port s) = true) ∧
    (∀ s ip ps : Str, splitFirst ':' s = some (ip, ps) → pyInt? ps = none →
      isError (validate_host_port s) = true) ∧
    (∀ (s ip ps : Str) (p : Int), splitFirst ':' s = some (ip, ps) →
      pyInt? ps = some p → ¬ (1 ≤ p ∧ p ≤ 65535) →
      isError (validate_host_port s) = true) ∧
    (∀ (s ip ps : Str) (p : Int), splitFirst ':' s = some (ip, ps) →
      pyInt? ps = some p → 1 ≤ p → p ≤ 65535 →
      validate_host_port s = .ok s) ∧
    validate_host_port "127.0.0.1:8089".data = .ok "127.0.0.1:8089".data ∧
    isError (validate_host_port "host".data) = true ∧
    isError (validate_host_port "host:99999".data) = true ∧
    isError (validate_host_port "host:abc".data) = true := by
  refine ⟨?_, ?_, ?_, ?_, rfl, rfl, rfl, rfl⟩
  · intro s h
    simp only [validate_host_port, splitFirst_eq_none ':' s h]
    rfl
  · intro s ip ps hsp hpi
    simp only [validate_host_port, hsp, hpi]
    rfl
  · intro s ip ps p hsp hpi hb
    simp only [validate_host_port, hsp, hpi, if_neg hb]
    rfl
  · intro s ip ps p hsp hpi h1 h2
    simp only [validate_host_port, hsp, hpi, if_pos (And.intro h1 h2)]

/-- Witness for C5: a colon-free address fails, a well-formed one passes. -/
theorem C5_witness :
    isError (validate_host_port "localhost".data) = true ∧
    validate_host_port "h:80".data = .ok "h:80".data :=
  ⟨C5_validate_host_port.1 "localhost".data (by decide),
   C5_validate_host_port.2.2.2.1 "h:80".data "h".data "80".data 80
     (by decide) (by decide) (by decide) (by decide)⟩

/-- Claim C10 (confirmed): the host component is unconstrained — for any
colon-free host text (in particular the empty one) and any port text parsing
as an integer in [1, 65535], the address validates and is returned
unchanged. -/
theorem C10_host_unconstrained (host ds : Str) (p : Int)
    (hc : ':' ∉ host) (hd : pyInt? ds = some p)
    (h1 : 1 ≤ p) (h2 : p ≤ 65535) :
    validate_host_port (host ++ ':' :: ds) = .ok (host ++ ':' :: ds) := by
  simp only [validate_host_port, splitFirst_append ':' host ds hc, hd,
    if_pos (And.intro h1 h2)]

/-- Witness for C10: the empty-host address `:8089` validates unchanged. -/
theorem C10_witness :
    validate_host_port ":8089".data = .ok ":8089".data :=
  C10_host_unconstrained [] "8089".data 8089 (by decide) (by decide)
    (by decide) (by decide)

/-! Claim C6 about the converter invocation. -/

/-- Claim C6 (confirmed): the converter is invoked as
`sigma convert -t splunk -f default <rule> [-p <pipeline>] --without-pipeline`:
with the sentinel pipeline no `-p` selector is passed; with any other
pipeline `-p <pipeline>` is inserted before the trailing flag; and the
no-pipeline flag is the final argument in both cases. -/
theorem C6_sigma_command (rulePath profile : Str)
    (h : profile ≠ "--without-pipeline".data) :
    sigmaCommand rulePath "--without-pipeline".data =
      ["sigma".data, "convert".data, "-t".data, "splunk".data, "-f".data,
        "default".data, rulePath, "--without-pipeline".data] ∧
    sigmaCommand rulePath profile =
      ["sigma".data, "convert".data, "-t".data, "splunk".data, "-f".data,
        "default".data, rulePath, "-p".data, profile,
        "--without-pipeline".data] ∧
    (sigmaCommand rulePath profile).getLast? = some "--without-pipeline".data ∧
    (sigmaCommand rulePath "--without-pipeline".data).getLast? =
      some "--without-pipeline".data := by
  refine ⟨?_, ?_, ?_, ?_⟩
  · simp [sigmaCommand]
  · simp [sigmaCommand, h]
  · simp [sigmaCommand, h, List.getLast?_concat]
  · simp [sigmaCommand, List.getLast?_concat]

/-- Witness for C6 with a non-sentinel pipeline profile. -/
theorem C6_witness :
    sigmaCommand "r.yml".data "sysmon".data =
      ["sigma".data, "convert".data, "-t".data, "splunk".data, "-f".data,
        "default".data, "r.yml".data, "-p".data, "sysmon".data,
        "--without-pipeline".data] :=
  (C6_sigma_command "r.yml".data "sysmon".data (by decide)).2.1

/-! Claims C7, C8 about error handling, C3 about the create call. -/

/-- Claim C7 (confirmed): a converter exiting 0 yields its stdout trimmed of
surrounding whitespace; a nonzero exit yields a translation error carrying
the stderr diagnostic; a missing executable yields the tool-not-found error;
and any converter failure inside the create flow makes the process exit 1. -/
theorem C7_convert_results (rulePath pl out err : Str) (code : Nat)
    (hc : code ≠ 0) :
    convert_sigma_to_splunk rulePath pl (fun _ => .ran 0 out err) =
      .ok (trimChars out) ∧
    convert_sigma_to_splunk rulePath pl (fun _ => .ran code out err) =
      .error (.translationFailed err) ∧
    convert_sigma_to_splunk rulePath pl (fun _ => .notFound) =
      .error .toolNotFound ∧
    (∀ (a : RawArgs) (w : World) (rp : Str),
      a.action = .createRule rp → (parse_args a).isSome = true →
      w.connect = .ok →
      isError (convert_sigma_to_splunk rp a.pipeline w.runTool) = true →
      (script a w none).exitCode = 1) := by
  refine ⟨rfl, ?_, rfl, ?_⟩
  · simp only [convert_sigma_to_splunk, if_neg hc]
  · intro a w rp ha hp hcn hcv
    rcases hps : parse_args a with _ | b
    · rw [hps] at hp
      cases hp
    · obtain ⟨hb, hv, _⟩ := parse_args_some a b hps
      rw [hb] at hps
      obtain ⟨ip, ps, hsp⟩ := validate_host_port_ok_split _ _ hv
      rcases hcv2 : convert_sigma_to_splunk rp a.pipeline w.runTool with e | q
      · simp only [script, mainScript, hps, connect_to_splunk, hsp, hcn, ha, hcv2]
      · rw [hcv2] at hcv
        cases hcv

/-- Witness for C7: a failing converter maps to the translation error, and a
missing converter executable ends the concrete run with exit code 1. -/
theorem C7_witness :
    convert_sigma_to_splunk "r.yml".data "--without-pipeline".data
      (fun _ => .ran 1 "".data "bad rule".data) =
      .error (.translationFailed "bad rule".data) ∧
    (script args0 { world0 with runTool := fun _ => .notFound } none).exitCode
      = 1 :=
  ⟨(C7_convert_results "r.yml".data "--without-pipeline".data "".data
      "bad rule".data 1 (by decide)).2.1,
   (C7_convert_results "r.yml".data "--without-pipeline".data "".data
      "bad rule".data 1 (by decide)).2.2.2 args0
      { world0 with runTool := fun _ => .notFound } "r.yml".data rfl
      (by decide) rfl (by decide)⟩

/-- Claim C8 (confirmed): a 409 status on create maps to the distinct
duplicate-search error naming the conflicting search, any other platform
failure maps to the generic creation error with the platform diagnostic, a
delete of an absent name maps to the search-not-found error, and each of
these failures makes the process exit 1. -/
theorem C8_platform_failures (searchName query timer msg : Str) (s : Nat)
    (hs : s ≠ 409) :
    create_scheduled_search (fun _ => .httpError 409 msg) searchName query
      timer = .error (.duplicateSearch searchName) ∧
    create_scheduled_search (fun _ => .httpError s msg) searchName query
      timer = .error (.creationFailed s msg) ∧
    delete_saved_search searchName false = .error (.searchNotFound searchName) ∧
    (∀ (a : RawArgs) (w : World) (rp q : Str),
      a.action = .createRule rp → (parse_args a).isSome = true →
      w.connect = .ok →
      convert_sigma_to_splunk rp a.pipeline w.runTool = .ok q →
      isError (create_scheduled_search w.platformCreate a.name q a.timer) =
        true →
      (script a w none).exitCode = 1) ∧
    (∀ (a : RawArgs) (w : World),
      a.action = .deleteSearch → (parse_args a).isSome = true →
      w.connect = .ok → w.deleteExists = false →
      (script a w none).exitCode = 1) := by
  refine ⟨rfl, ?_, rfl, ?_, ?_⟩
  · simp only [create_scheduled_search, if_neg hs]
  · intro a w rp q ha hp hcn hq hcr
    rcases hps : parse_args a with _ | b
    · rw [hps] at hp
      cases hp
    · obtain ⟨hb, hv, _⟩ := parse_args_some a b hps
      rw [hb] at hps
      obtain ⟨ip, ps, hsp⟩ := validate_host_port_ok_split _ _ hv
      rcases hcr2 : create_scheduled_search w.platformCreate a.name q a.timer
        with e | ret
      · simp only [script, mainScript, hps, connect_to_splunk, hsp, hcn, ha,
          hq, hcr2]
      · rw [hcr2] at hcr
        cases hcr
  · intro a w ha hp hcn hd
    rcases hps : parse_args a with _ | b
    · rw [hps] at hp
      cases hp
    · obtain ⟨hb, hv, _⟩ := parse_args_some a b hps
      rw [hb] at hps
      obtain ⟨ip, ps, hsp⟩ := validate_host_port_ok_split _ _ hv
      simp only [script, mainScript, hps, connect_to_splunk, hsp, hcn, ha,
        delete_saved_search, hd]
      rfl

/-- Witness for C8: duplicate-name conflict, a 500 failure, and a delete of
an absent search, each at concrete inputs. -/
theorem C8_witness :
    create_scheduled_search (fun _ => .httpError 409 "conflict".data)
      "alerts".data "foo=bar".data "*/30 * * * *".data =
      .error (.duplicateSearch "alerts".data) ∧
    create_scheduled_search (fun _ => .httpError 500 "boom".data)
      "alerts".data "foo=bar".data "*/30 * * * *".data =
      .error (.creationFailed 500 "boom".data) ∧
    delete_saved_search "alerts".data false =
      .error (.searchNotFound "alerts".data) :=
  ⟨(C8_platform_failures "alerts".data "foo=bar".data "*/30 * * * *".data
      "conflict".data 500 (by decide)).1,
   (C8_platform_failures "alerts".data "foo=bar".data "*/30 * * * *".data
      "boom".data 500 (by decide)).2.1,
   (C8_platform_failures "alerts".data "foo=bar".data "*/30 * * * *".data
      "boom".data 500 (by decide)).2.2.1⟩

/-- Claim C3 (corrected): on every successful call the create request carries
the query wrapped with the leading `search` directive, the scheduling flag
set to true and the fixed originator description — but the function returns
the wrapped query string, not the created search definition entity (the
entity is only logged). -/
theorem C3_create_request (searchName query timer : Str) (d : SearchDefinition) :
    (createRequest searchName query timer).search = "search ".data ++ query ∧
    (createRequest searchName query timer).is_scheduled = true ∧
    (createRequest searchName query timer).description = scriptDescription ∧
    create_scheduled_search (fun _ => .created d) searchName query timer =
      .ok (.queryText ("search ".data ++ query)) :=
  ⟨rfl, rfl, rfl, rfl⟩

/-- Counterexample to C3 as stated: at the concrete scenario the successful
create call returns the plain wrapped query string, not the definition
entity the platform created. -/
theorem C3_counterexample :
    create_scheduled_search (fun _ => CreateOutcome.created defn0)
      "alerts".data "foo=bar".data "*/30 * * * *".data =
      .ok (.queryText "search foo=bar".data) ∧
    gotDefinition (create_scheduled_search
      (fun _ => CreateOutcome.created defn0) "alerts".data "foo=bar".data
      "*/30 * * * *".data) = false :=
  ⟨rfl, rfl⟩

/-- Witness for C3 at the concrete scenario. -/
theorem C3_witness :
    create_scheduled_search (fun _ => .created defn0) "alerts".data
      "foo=bar".data "*/30 * * * *".data =
      .ok (.queryText "search foo=bar".data) :=
  (C3_create_request "alerts".data "foo=bar".data "*/30 * * * *".data
    defn0).2.2.2

/-! Claim C2 about the job runner, with polling-loop lemmas. -/

theorem filter_isCheck_pollActions (n : Nat) :
    (pollActions n).filter isCheck =
      List.replicate n (JobAction.checkedReady false) ++
        [JobAction.checkedReady true] := by
  induction n with
  | zero => rfl
  | succ k ih => simp [pollActions, List.replicate_succ, isCheck, isSleep, ih]

theorem filter_isSleep_pollActions (n : Nat) :
    (pollActions n).filter isSleep = List.replicate n (JobAction.slept 2) := by
  induction n with
  | zero => rfl
  | succ k ih => simp [pollActions, List.replicate_succ, isCheck, isSleep, ih]

theorem filter_checkSleep_pollActions (n : Nat) :
    (pollActions n).filter isCheckOrSleep =
      (List.replicate n [JobAction.checkedReady false, JobAction.slept 2]).flatten
        ++ [JobAction.checkedReady true] := by
  induction n with
  | zero => rfl
  | succ k ih =>
    show JobAction.checkedReady false :: JobAction.slept 2 ::
        (pollActions k).filter isCheckOrSleep =
      (List.replicate (k + 1)
        [JobAction.checkedReady false, JobAction.slept 2]).flatten ++
        [JobAction.checkedReady true]
    rw [ih, List.replicate_succ]
    rfl

theorem filter_isRead_pollActions (n : Nat) :
    (pollActions n).filter isRead = [] := by
  induction n with
  | zero => rfl
  | succ k ih => simp [pollActions, isRead, ih]

theorem filter_isProgress_pollActions (n : Nat) :
    (pollActions n).filter isProgress = [] := by
  induction n with
  | zero => rfl
  | succ k ih => simp [pollActions, isProgress, ih]

theorem loggedCompleted_not_mem_pollActions (n : Nat) :
    JobAction.loggedCompleted ∉ pollActions n := by
  induction n with
  | zero => simp [pollActions]
  | succ k ih => simp [pollActions, ih]

theorem dropWhile_pollActions (n : Nat) (l : List JobAction) :
    (pollActions n ++ l).dropWhile notYetReady =
      JobAction.checkedReady true :: l := by
  induction n with
  | zero => rfl
  | succ k ih =>
    show (pollActions k ++ l).dropWhile notYetReady =
      JobAction.checkedReady true :: l
    exact ih

/-- Claim C2 (confirmed): for a job reporting not-ready `n` times then ready,
`execute_search` checks readiness n+1 times (n false checks, then one true),
sleeps a fixed 2 time units exactly between consecutive checks, then — after
the first true check and never before — takes exactly one metrics snapshot
and logs exactly one progress line carrying `doneProgress * 100` (rendered
to one decimal place by the fixed format string of src/s2s.py line 129)
together with the scanned, matched and result counts, and logs the
completion message if and only if the done flag string equals the literal
`"1"`; no readiness check occurs after the first true one, whatever the done
flag holds. -/
theorem C2_execute_search (q : Str) (n : Nat) (m : JobMetrics) :
    (execute_search q ⟨n, m⟩).filter isCheck =
      List.replicate n (JobAction.checkedReady false) ++
        [JobAction.checkedReady true] ∧
    (execute_search q ⟨n, m⟩).filter isSleep =
      List.replicate n (JobAction.slept 2) ∧
    (execute_search q ⟨n, m⟩).filter isCheckOrSleep =
      (List.replicate n
        [JobAction.checkedReady false, JobAction.slept 2]).flatten
        ++ [JobAction.checkedReady true] ∧
    (execute_search q ⟨n, m⟩).filter isRead = [JobAction.readStats m] ∧
    (execute_search q ⟨n, m⟩).filter isProgress =
      [JobAction.loggedProgress (m.doneProgress * 100) m.scanCount
        m.eventCount m.resultCount] ∧
    (execute_search q ⟨n, m⟩).dropWhile notYetReady =
      JobAction.checkedReady true :: JobAction.readStats m ::
        JobAction.loggedProgress (m.doneProgress * 100) m.scanCount
          m.eventCount m.resultCount ::
        (if m.isDone = "1".data then [JobAction.loggedCompleted] else []) ∧
    (JobAction.loggedCompleted ∈ execute_search q ⟨n, m⟩ ↔
      m.isDone = "1".data) := by
  by_cases hd : m.isDone = "1".data <;>
    refine ⟨?_, ?_, ?_, ?_, ?_, ?_, ?_⟩ <;>
      simp [execute_search, hd, List.filter_append, List.dropWhile_cons,
        isCheck, isSleep, isRead, isProgress, isCheckOrSleep, notYetReady,
        filter_isCheck_pollActions, filter_isSleep_pollActions,
        filter_checkSleep_pollActions, filter_isRead_pollActions,
        filter_isProgress_pollActions, loggedCompleted_not_mem_pollActions,
        dropWhile_pollActions]

/-- Witness for C2 at the concrete scenario job. -/
theorem C2_witness :
    (execute_search "search foo=bar".data ⟨2, metrics1⟩).filter isCheck =
      [JobAction.checkedReady false, JobAction.checkedReady false,
       JobAction.checkedReady true] :=
  (C2_execute_search "search foo=bar".data 2 metrics1).1

/-! Claims C1 and C9 about the orchestrator. -/

/-- Claim C1 (corrected): in the create flow the orchestrator validates the
schedule (and the host address) during argument parsing, then acquires
credentials and connects to the platform, then translates the rule, then
creates the scheduled search, then submits and polls the job; on success the
process exits 0.  Contrary to the claim as stated, the session to the
platform is established before rule translation. -/
theorem C1_create_flow (a : RawArgs) (w : World)
    (rulePath ip port out err : Str) (d : SearchDefinition)
    (ha : a.action = .createRule rulePath)
    (hh : validate_host_port a.host = .ok a.host)
    (ht : validate_cron a.timer = .ok a.timer)
    (hsp : splitFirst ':' a.host = some (ip, port))
    (hcn : w.connect = .ok)
    (hrun : w.runTool (sigmaCommand rulePath a.pipeline) = .ran 0 out err)
    (hcr : w.platformCreate (createRequest a.name (trimChars out) a.timer) =
      .created d) :
    script a w none =
      ⟨[Step.validatedHost a.host, Step.validatedTimer a.timer,
        Step.gotCredentials, Step.connected ip port,
        Step.ranConverter (sigmaCommand rulePath a.pipeline),
        Step.createdSearch (createRequest a.name (trimChars out) a.timer),
        Step.jobRan (execute_search ("search ".data ++ trimChars out) w.job)],
       0⟩ := by
  have hps : parse_args a = some a := by
    simp only [parse_args, hh, ht]
  simp [createRequest] at hcr
  simp [script, mainScript, hps, connect_to_splunk, hsp, hcn, ha,
    convert_sigma_to_splunk, hrun, create_scheduled_search, hcr, queryOf,
    createRequest]

/-- Witness for C1: the full successful create-flow trace of the end-to-end
scenario, ending with exit code 0. -/
theorem C1_witness :
    script args0 world0 none =
      ⟨[Step.validatedHost "127.0.0.1:8089".data,
        Step.validatedTimer "*/30 * * * *".data, Step.gotCredentials,
        Step.connected "127.0.0.1".data "8089".data,
        Step.ranConverter (sigmaCommand "r.yml".data "--without-pipeline".data),
        Step.createdSearch (createRequest "alerts".data "foo=bar".data
          "*/30 * * * *".data),
        Step.jobRan (execute_search "search foo=bar".data world0.job)], 0⟩ :=
  C1_create_flow args0 world0 "r.yml".data "127.0.0.1".data "8089".data
    "foo=bar\n".data "".data defn0 rfl rfl rfl rfl rfl rfl rfl

/-- Counterexample to C1 as stated: in the concrete successful create-flow
run both the converter (translation) step and the connection step occur, and
the converter step does not precede the connection step. -/
theorem C1_counterexample :
    (script args0 world0 none).trace.any isConvStep = true ∧
    (script args0 world0 none).trace.any isConnStep = true ∧
    ¬ ((script args0 world0 none).trace.findIdx isConvStep <
        (script args0 world0 none).trace.findIdx isConnStep) := by
  refine ⟨rfl, rfl, ?_⟩
  decide

/-- Claim C9 (corrected): the process exits 0 on success; it exits 1 exactly
when a fatal script failure is logged (connectivity, authentication,
tool-not-found, translation, creation conflict or failure,
search-not-found), and a user interruption striking after any number of
completed steps is logged and exits 1; but a validation failure is raised
inside the argument parser, which terminates with exit status 2, not 1. -/
theorem C9_exit_codes (a : RawArgs) (w : World) (k : Nat) :
    ((script a w none).exitCode = 2 ↔ parse_args a = none) ∧
    ((script a w none).exitCode = 1 ↔
      loggedErrorIn (script a w none).trace = true) ∧
    ((script a w none).exitCode = 0 ↔
      (parse_args a ≠ none ∧ loggedErrorIn (script a w none).trace = false)) ∧
    (script a w (some k)).exitCode = 1 ∧
    Step.loggedInterrupt ∈ (script a w (some k)).trace := by
  have hmain : (parse_args a = none ∧ mainScript a w = ⟨[], 2⟩) ∨
      (parse_args a ≠ none ∧ (mainScript a w).exitCode = 1 ∧
        loggedErrorIn (mainScript a w).trace = true) ∨
      (parse_args a ≠ none ∧ (mainScript a w).exitCode = 0 ∧
        loggedErrorIn (mainScript a w).trace = false) := by
    rcases hps : parse_args a with _ | b
    · exact Or.inl ⟨rfl, by simp [mainScript, hps]⟩
    · rcases hcn : connect_to_splunk b.host w.connect with e | hp
      · refine Or.inr (Or.inl ⟨by simp [hps], ?_, ?_⟩) <;>
          simp [mainScript, hps, hcn, loggedErrorIn]
      · rcases hact : b.action with rp | _
        · rcases hcv : convert_sigma_to_splunk rp b.pipeline w.runTool
            with e | qtext
          · refine Or.inr (Or.inl ⟨by simp [hps], ?_, ?_⟩) <;>
              simp [mainScript, hps, hcn, hact, hcv, loggedErrorIn]
          · rcases hcr : create_scheduled_search w.platformCreate b.name qtext
              b.timer with e | ret
            · refine Or.inr (Or.inl ⟨by simp [hps], ?_, ?_⟩) <;>
                simp [mainScript, hps, hcn, hact, hcv, hcr, loggedErrorIn]
            · refine Or.inr (Or.inr ⟨by simp [hps], ?_, ?_⟩) <;>
                simp [mainScript, hps, hcn, hact, hcv, hcr, loggedErrorIn]
        · rcases hdl : delete_saved_search b.name w.deleteExists with e | u
          · refine Or.inr (Or.inl ⟨by simp [hps], ?_, ?_⟩) <;>
              simp [mainScript, hps, hcn, hact, hdl, loggedErrorIn]
          · refine Or.inr (Or.inr ⟨by simp [hps], ?_, ?_⟩) <;>
              simp [mainScript, hps, hcn, hact, hdl, loggedErrorIn]
  have hscript : script a w none = mainScript a w := rfl
  have hint1 : (script a w (some k)).exitCode = 1 := rfl
  have hint2 : Step.loggedInterrupt ∈ (script a w (some k)).trace := by
    simp [script]
  rcases hmain with ⟨hp, hm⟩ | ⟨hp, h1, h2⟩ | ⟨hp, h1, h2⟩
  · rw [hscript, hm]
    exact ⟨by simp [hp], by simp [loggedErrorIn], by simp [hp], hint1, hint2⟩
  · rw [hscript]
    exact ⟨by simp [h1, hp], by simp [h1, h2], by simp [h1, h2], hint1, hint2⟩
  · rw [hscript]
    exact ⟨by simp [h1, hp], by simp [h1, h2], by simp [h1, h2, hp], hint1,
      hint2⟩

/-- Witness for C9: the interrupted concrete run logs the interruption and
exits 1. -/
theorem C9_witness :
    (script args0 world0 (some 1)).exitCode = 1 ∧
    Step.loggedInterrupt ∈ (script args0 world0 (some 1)).trace :=
  ⟨(C9_exit_codes args0 world0 1).2.2.2.1, (C9_exit_codes args0 world0 1).2.2.2.2⟩

/-- Counterexample to C9 as stated: with a malformed four-field timer the
process exits with the argument parser status 2, not 1. -/
theorem C9_counterexample :
    (script argsBadTimer world0 none).exitCode = 2 ∧
    (script argsBadTimer world0 none).exitCode ≠ 1 :=
  ⟨rfl, by decide⟩

end S2S
